import Mathlib

/-!
Verification development for the kazlog logging library (src/kazlog/kazlog.h).

The embedding is shallow: each C++ entity is translated to a Lean definition.

* Strings are Lean `String`s, manipulated through their `List Char` data.
* `std::string::find` is `findSub` (first index of a substring, `none` for
  `npos`); `std::string::replace(pos, len, s)` at a found position is
  `replaceFirst`, which returns `none` exactly when `find` returned `npos`
  (in C++ `replace(npos, ...)` throws `std::out_of_range`).
* `Formatter` is variadic in C++. Its value arguments are modelled by `FArg`:
  either an ordinary argument already rendered in its default textual form
  (`FArg.val`, the result of `ss << val`), or a `Formatter::Counter` passed as
  a value argument (`FArg.counter`). `Counter` has no stream-insertion
  operator, so any instantiation that must stringify a `Counter` is ill-formed
  C++ (the program does not compile); the embedding surfaces that as
  `FormatError.illFormed` at the point the stringification would occur.
  The recursive step of `do_format` in the source reads
  `Formatter(result).format(Counter(count.val + 1), args...)`: `format`
  prepends a fresh `Counter()` (index 0) and passes the old counter on as the
  first *value* argument, so every call with two or more arguments reaches an
  ill-formed instantiation.
* `Logger` state that the C++ mutates in place is passed explicitly: the
  process-wide dedup table of `warn_once` (a `static` map from file to the
  set of lines already warned) and the clock live in `GState`;
  `std::chrono::system_clock::now()` is an oracle `clk : Nat → Nat` applied to
  a running query counter (`ticks`), because the source queries the clock
  once per handler, inside the dispatch loop.
* A handler invocation `handlers_[i]->write_message(this, now, level, text)`
  is recorded as an `Event`; the concrete handlers (console, file) perform
  I/O and are external to the claims, which are about which invocations
  happen and with which arguments.
-/

namespace Kazlog

/-- `LOG_LEVEL` from kazlog.h: NONE=0, ERROR=1, WARN=2, INFO=3, DEBUG=4. -/
inductive LOG_LEVEL where
  | NONE
  | ERROR
  | WARN
  | INFO
  | DEBUG
  deriving DecidableEq

/-- The numeric value of each enumerator, used by the `level_ < LOG_LEVEL_X`
comparisons in the source. -/
def LOG_LEVEL.toNat : LOG_LEVEL → Nat
  | .NONE => 0
  | .ERROR => 1
  | .WARN => 2
  | .INFO => 3
  | .DEBUG => 4

/-- Errors of the formatting path.
`notFound` models `std::string::find` returning `npos`, after which
`replace(npos, ...)` throws `std::out_of_range`.
`illFormed` models a template instantiation that does not compile: there is no
`operator<<` for `Formatter::Counter`, and no overload of `do_format` that
takes zero value arguments. -/
inductive FormatError where
  | notFound
  | illFormed
  deriving DecidableEq

/-- A value argument of the variadic `Formatter::format`/`do_format`: either an
ordinary argument in its default textual form, or a `Formatter::Counter`
passed as a value (which happens in the recursive step of the source). -/
inductive FArg where
  | val (s : String)
  | counter (n : Nat)
  deriving DecidableEq

/-- Count of ordinary (stringifiable) arguments; termination measure for
`do_format`, whose recursive call replaces the `.val` head by a `.counter`. -/
def valCount : List FArg → Nat
  | [] => 0
  | .val _ :: t => valCount t + 1
  | .counter _ :: t => valCount t

/-- `std::string::find` for a substring: the first index at which `needle`
occurs in `hay`, `none` for `npos`. -/
def findSub (hay needle : List Char) : Option Nat :=
  if needle.isPrefixOf hay then some 0
  else
    match hay with
    | [] => none
    | _ :: t => (findSub t needle).map Nat.succ

/-- `result.replace(result.find(needle), needle.size(), repl)`: replace the
first occurrence of `needle` in `hay` by `repl`; `none` when `find` returned
`npos` (in which case the C++ `replace` throws `std::out_of_range`). -/
def replaceFirst (hay needle repl : List Char) : Option (List Char) :=
  match findSub hay needle with
  | none => none
  | some i => some (hay.take i ++ repl ++ hay.drop (i + needle.length))

/-- The placeholder token `"{" + std::to_string(count.val) + "}"`. -/
def placeholder (count : Nat) : List Char :=
  '{' :: (toString count).data ++ ['}']

/-- `Formatter::do_format`, translated clause by clause from the source.

* No overload takes zero value arguments, so `[]` is ill-formed.
* One value argument (the non-variadic overload): stringify it (`ss << val`,
  ill-formed when the value is a `Counter`), then
  `result.replace(result.find(to_replace), to_replace.size(), ss.str())`.
* Two or more value arguments (the variadic overload): same stringify and
  replace, then `return Formatter(result).format(Counter(count.val + 1),
  args...)` — `format` calls `do_format(Counter(), args...)`, i.e. the count
  restarts at 0 and `Counter(count.val + 1)` becomes the first value
  argument of the recursive call. -/
def do_format (str : List Char) (count : Nat) (args : List FArg) :
    Except FormatError (List Char) :=
  match args with
  | [] => .error .illFormed
  | [.counter _] => .error .illFormed
  | [.val s] =>
    match replaceFirst str (placeholder count) s.data with
    | none => .error .notFound
    | some r => .ok r
  | .counter _ :: _ :: _ => .error .illFormed
  | .val s :: b :: rest =>
    match replaceFirst str (placeholder count) s.data with
    | none => .error .notFound
    | some r => do_format r 0 (.counter (count + 1) :: b :: rest)
termination_by valCount args
decreasing_by simp [valCount]

/-- `Formatter`, holding the format string `str_`. -/
structure Formatter where
  str_ : String
  deriving DecidableEq

/-- `Formatter::format(args...)`: `do_format(Counter(), args...)`, the count
starting at 0 and every caller-supplied argument being an ordinary value. -/
def Formatter.format (f : Formatter) (args : List String) :
    Except FormatError String :=
  (do_format f.str_.data 0 (args.map FArg.val)).map String.mk

/-- Modelled from the spec: the intended multi-step substitution of
`Formatter::do_format` (§4.1 of the spec: replace the first occurrence of
`{i}` by the i-th argument's text and "recurse into the next step with the
updated template and the remaining arguments"). It differs from the source
only in the recursive call, which continues at `count + 1` over the remaining
arguments instead of re-entering `format` with the `Counter` as a value
argument (the source's slip, which is ill-formed for two or more arguments). -/
def do_format_spec (str : List Char) (count : Nat) :
    List String → Except FormatError (List Char)
  | [] => .error .illFormed
  | [s] =>
    match replaceFirst str (placeholder count) s.data with
    | none => .error .notFound
    | some r => .ok r
  | s :: b :: rest =>
    match replaceFirst str (placeholder count) s.data with
    | none => .error .notFound
    | some r => do_format_spec r (count + 1) (b :: rest)

/-- Modelled from the spec: top level of the intended formatter. -/
def format_spec (fmt : String) (args : List String) :
    Except FormatError String :=
  (do_format_spec fmt.data 0 args).map String.mk

/-- One handler invocation `handlers_[i]->write_message(this,
std::chrono::system_clock::now(), level, s.str())`, recorded with the handler
identity it was dispatched to. `time` is the value returned by the clock
oracle for that particular `now()` query. -/
structure Event where
  loggerName : String
  handler : Nat
  time : Nat
  level : String
  message : String
  deriving DecidableEq

/-- `Logger`: name, ordered handler list (handlers identified by a `Nat`
handle, since their own behaviour is external I/O), and threshold. The
constructor sets `level_(LOG_LEVEL_DEBUG)`. -/
structure Logger where
  name_ : String
  handlers_ : List Nat
  level_ : LOG_LEVEL := .DEBUG
  deriving DecidableEq

/-- `Logger::Logger(name)`: default threshold DEBUG, no handlers yet. -/
def Logger.mkNamed (name : String) : Logger :=
  { name_ := name, handlers_ := [], level_ := .DEBUG }

/-- `Logger::set_level`. -/
def Logger.set_level (lg : Logger) (level : LOG_LEVEL) : Logger :=
  { lg with level_ := level }

/-- `Logger::add_handler`: appends to the handler list (no duplicate check). -/
def Logger.add_handler (lg : Logger) (h : Nat) : Logger :=
  { lg with handlers_ := lg.handlers_ ++ [h] }

/-- Process-wide mutable state threaded through the calls: the `static`
dedup table of `Logger::warn_once` (membership of `(file, line)` is what the
source's map-of-sets lookup `warned.find(file) != warned.end() &&
warned[file].count(line)` decides, and `warned[file].insert(line)` adds the
pair), and the number of `std::chrono::system_clock::now()` queries made so
far (`ticks`), which indexes the clock oracle. -/
structure GState where
  warned : List (String × Int)
  ticks : Nat
  deriving DecidableEq

/-- The loop `for(i...) handlers_[i]->write_message(this, now(), level,
s.str())`: one event per handler in order, the clock queried afresh at each
iteration. -/
def invokeHandlers (lgName : String) (clk : Nat → Nat) (t : Nat)
    (level msg : String) : List Nat → List Event
  | [] => []
  | h :: rest =>
    { loggerName := lgName, handler := h, time := clk t, level := level,
      message := msg } :: invokeHandlers lgName clk (t + 1) level msg rest

/-- `_F("{0}").format(line)` in `write_message`: the line number rendered
through the positional `Formatter`. The `.error` branch is dead code
(`format_zero_ok` below proves the format always succeeds here); in C++ a
formatting exception would propagate out of the log call. -/
def formatLine (line : Int) : String :=
  match (Formatter.mk "{0}").format [toString line] with
  | .ok s => s
  | .error _ => ""

/-- The message body built by the stringstream in `Logger::write_message`:
`s << this_thread::get_id() << ": "; s << text << " (" << file << ":"
<< _F("{0}").format(line) << ")";`. -/
def assembled (tid text file : String) (line : Int) : String :=
  tid ++ ": " ++ text ++ " (" ++ file ++ ":" ++ formatLine line ++ ")"

/-- `Logger::write_message`: assemble
`<thread-id>: <text> (<file>:<line-rendered-by-Formatter>)` and invoke every
handler in attachment order, querying the clock once per handler. `tid` is
the textual form of `std::this_thread::get_id()` for the calling thread. -/
def Logger.write_message (lg : Logger) (clk : Nat → Nat) (tid : String)
    (g : GState) (level text file : String) (line : Int) :
    List Event × GState :=
  (invokeHandlers lg.name_ clk g.ticks level (assembled tid text file line)
     lg.handlers_,
   { g with ticks := g.ticks + lg.handlers_.length })

/-- `Logger::debug`: `if(level_ < LOG_LEVEL_DEBUG) return;` then
`write_message("DEBUG", ...)`. -/
def Logger.debug (lg : Logger) (clk : Nat → Nat) (tid : String) (g : GState)
    (text : String) (file : String := "None") (line : Int := -1) :
    List Event × GState :=
  if lg.level_.toNat < LOG_LEVEL.DEBUG.toNat then ([], g)
  else lg.write_message clk tid g "DEBUG" text file line

/-- `Logger::info`. -/
def Logger.info (lg : Logger) (clk : Nat → Nat) (tid : String) (g : GState)
    (text : String) (file : String := "None") (line : Int := -1) :
    List Event × GState :=
  if lg.level_.toNat < LOG_LEVEL.INFO.toNat then ([], g)
  else lg.write_message clk tid g "INFO" text file line

/-- `Logger::warn`. -/
def Logger.warn (lg : Logger) (clk : Nat → Nat) (tid : String) (g : GState)
    (text : String) (file : String := "None") (line : Int := -1) :
    List Event × GState :=
  if lg.level_.toNat < LOG_LEVEL.WARN.toNat then ([], g)
  else lg.write_message clk tid g "WARN" text file line

/-- `Logger::error`. -/
def Logger.error (lg : Logger) (clk : Nat → Nat) (tid : String) (g : GState)
    (text : String) (file : String := "None") (line : Int := -1) :
    List Event × GState :=
  if lg.level_.toNat < LOG_LEVEL.ERROR.toNat then ([], g)
  else lg.write_message clk tid g "ERROR" text file line

/-- `Logger::warn_once`: with the `-1` sentinel line, fall back to `warn`;
otherwise consult the process-wide dedup table: drop the call if `(file,
line)` is present, else insert the key and proceed as a normal `warn` (the
threshold is only checked afterwards, inside `warn`). -/
def Logger.warn_once (lg : Logger) (clk : Nat → Nat) (tid : String)
    (g : GState) (text : String) (file : String := "None")
    (line : Int := -1) : List Event × GState :=
  if line = -1 then lg.warn clk tid g text file line
  else if (file, line) ∈ g.warned then ([], g)
  else lg.warn clk tid { g with warned := (file, line) :: g.warned } text file line

/-! ## Helper lemmas -/

/-- Formatting the one-placeholder template `"{0}"` with a single argument
always succeeds and returns that argument: the path `write_message` uses. -/
theorem format_zero_ok (s : String) : (Formatter.mk "{0}").format [s] = .ok s := by
  have h : findSub "{0}".data (placeholder 0) = some 0 := by decide
  have hd : List.drop (placeholder 0).length ['{', '0', '}'] = [] := by decide
  simp [Formatter.format, do_format, replaceFirst, h, hd]
  cases s with
  | mk l => rfl

/-- The line suffix of `write_message` is the decimal rendering of the line
number, produced by the `Formatter`. -/
theorem formatLine_eq (line : Int) : formatLine line = toString line := by
  rw [formatLine, format_zero_ok]

/-- The dispatch loop invokes exactly the attached handlers, in order. -/
theorem invokeHandlers_map_handler (n : String) (clk : Nat → Nat) (t : Nat)
    (level msg : String) (hs : List Nat) :
    (invokeHandlers n clk t level msg hs).map Event.handler = hs := by
  induction hs generalizing t with
  | nil => rfl
  | cons h rest ih => simp [invokeHandlers, ih]

/-- Every invocation of one dispatch loop carries the same message text. -/
theorem invokeHandlers_message (n : String) (clk : Nat → Nat) (t : Nat)
    (level msg : String) (hs : List Nat) :
    ∀ e ∈ invokeHandlers n clk t level msg hs, e.message = msg := by
  induction hs generalizing t with
  | nil => intro e he; cases he
  | cons h rest ih =>
    intro e he
    cases he with
    | head => rfl
    | tail _ h2 => exact ih (t + 1) e h2

/-- One invocation per attached handler. -/
theorem invokeHandlers_length (n : String) (clk : Nat → Nat) (t : Nat)
    (level msg : String) (hs : List Nat) :
    (invokeHandlers n clk t level msg hs).length = hs.length := by
  induction hs generalizing t with
  | nil => rfl
  | cons h rest ih => simp [invokeHandlers, ih]

/-- The dispatch loop over exactly two handlers: the clock is queried once
per handler, so the two events carry the readings of two successive
queries. -/
theorem invokeHandlers_pair (n : String) (clk : Nat → Nat) (t : Nat)
    (level msg : String) (h0 h1 : Nat) :
    invokeHandlers n clk t level msg [h0, h1] =
      [⟨n, h0, clk t, level, msg⟩, ⟨n, h1, clk (t + 1), level, msg⟩] := rfl

/-! ## Claim theorems -/

/-- Claim C1: a call to debug/info/warn/error emits to handlers only if the
call's severity level is less than or equal to the logger's threshold
(whenever the threshold's ordinal is below the call's, the call produces no
events); in particular, for a logger with threshold INFO, `debug` produces
zero handler invocations while `warn` and `error` each produce exactly one
invocation per attached handler, in attachment order. -/
theorem C1_threshold_filter (lg : Logger) (clk : Nat → Nat) (tid : String)
    (g : GState) (text file : String) (line : Int) :
    (lg.level_.toNat < LOG_LEVEL.DEBUG.toNat →
      (lg.debug clk tid g text file line).1 = [])
  ∧ (lg.level_.toNat < LOG_LEVEL.INFO.toNat →
      (lg.info clk tid g text file line).1 = [])
  ∧ (lg.level_.toNat < LOG_LEVEL.WARN.toNat →
      (lg.warn clk tid g text file line).1 = [])
  ∧ (lg.level_.toNat < LOG_LEVEL.ERROR.toNat →
      (lg.error clk tid g text file line).1 = [])
  ∧ (lg.level_ = LOG_LEVEL.INFO →
      (lg.debug clk tid g text file line).1 = []
    ∧ (lg.warn clk tid g text file line).1.map Event.handler = lg.handlers_
    ∧ (lg.error clk tid g text file line).1.map Event.handler = lg.handlers_) := by
  refine ⟨fun h => by simp [Logger.debug, h], fun h => by simp [Logger.info, h],
    fun h => by simp [Logger.warn, h], fun h => by simp [Logger.error, h],
    fun h => ?_⟩
  refine ⟨by simp [Logger.debug, h, LOG_LEVEL.toNat], ?_, ?_⟩
  · simp [Logger.warn, h, LOG_LEVEL.toNat, Logger.write_message,
      invokeHandlers_map_handler]
  · simp [Logger.error, h, LOG_LEVEL.toNat, Logger.write_message,
      invokeHandlers_map_handler]

/-- Witness for C1: a concrete INFO-threshold logger with two handlers. -/
theorem C1_threshold_filter_witness :
    ((Logger.mk "root" [0, 1] .INFO).debug (fun n => n) "t" ⟨[], 0⟩ "m" "f" 3).1 = []
  ∧ ((Logger.mk "root" [0, 1] .INFO).warn (fun n => n) "t" ⟨[], 0⟩ "m" "f" 3).1.map
      Event.handler = [0, 1]
  ∧ ((Logger.mk "root" [0, 1] .INFO).error (fun n => n) "t" ⟨[], 0⟩ "m" "f" 3).1.map
      Event.handler = [0, 1] :=
  (C1_threshold_filter (Logger.mk "root" [0, 1] .INFO) (fun n => n) "t" ⟨[], 0⟩
    "m" "f" 3).2.2.2.2 rfl

/-- Claim C2: formatting `"{0}-{1}"` with arguments `(42, "x")` is claimed to
yield `"42-x"`. In the source this call is ill-formed (the recursive step
passes the `Counter` through `format`, which must stringify it and cannot),
so the faithful embedding yields `illFormed`; the spec-modelled intended
recursion yields exactly the claimed `"42-x"`. -/
theorem C2_format_two_args :
    (Formatter.mk "{0}-{1}").format ["42", "x"] = .error .illFormed
  ∧ format_spec "{0}-{1}" ["42", "x"] = .ok "42-x" := by
  constructor
  · simp [Formatter.format, do_format]; rfl
  · rfl

/-- Counterexample for C3: formatting the template `"{0}{1}"` with the single
argument `"x"` — fewer arguments than placeholders — does not signal any
error: it returns the partially substituted string `"x{1}"`. -/
theorem C3_partial_substitution :
    (Formatter.mk "{0}{1}").format ["x"] = .ok "x{1}" := by
  simp [Formatter.format, do_format]; rfl

/-- Claim C3 as amended: when the (single) argument's expected placeholder
`{0}` is absent from the template, formatting signals an error (`find`
returns npos and the `replace` throws); but when there are fewer arguments
than placeholders, formatting returns the partially substituted string with
the unmatched placeholders left verbatim, signalling nothing. -/
theorem C3_missing_placeholder_errors :
    (∀ s v : String, findSub s.data (placeholder 0) = none →
      (Formatter.mk s).format [v] = .error .notFound)
  ∧ (Formatter.mk "{0}{1}").format ["x"] = .ok "x{1}" := by
  constructor
  · intro s v h
    have hr : replaceFirst s.data (placeholder 0) v.data = none := by
      rw [replaceFirst, h]
    simp [Formatter.format, do_format, hr]
    rfl
  · simp [Formatter.format, do_format]; rfl

/-- Witness for C3: the template `"abc"` has no `{0}`, and formatting it with
one argument errors. -/
theorem C3_missing_placeholder_witness :
    findSub "abc".data (placeholder 0) = none
  ∧ (Formatter.mk "abc").format ["x"] = .error .notFound :=
  ⟨by decide, C3_missing_placeholder_errors.1 "abc" "x" (by decide)⟩

/-- Claim C4: with a WARN-permitting threshold and a single attached handler,
`warn_once` at a fresh `(file, line)` key emits one invocation and inserts
the key; a second call with the same key emits nothing, a call with a
different line emits one more, and the table is shared process-wide (any
other logger's `warn_once` at the recorded key is also dropped). -/
theorem C4_warn_once_dedup (lg lg2 : Logger) (clk clk2 : Nat → Nat)
    (tid tid2 : String) (g : GState) (text text2 text3 : String)
    (file : String) (line line2 : Int) (hd : Nat)
    (hlvl : LOG_LEVEL.WARN.toNat ≤ lg.level_.toNat) (hh : lg.handlers_ = [hd])
    (hl : line ≠ -1) (hl2 : line2 ≠ -1) (hne : line ≠ line2)
    (hf : (file, line) ∉ g.warned) (hf2 : (file, line2) ∉ g.warned) :
    (lg.warn_once clk tid g text file line).1.length = 1
  ∧ (lg.warn_once clk tid g text file line).2.warned = (file, line) :: g.warned
  ∧ (lg.warn_once clk tid (lg.warn_once clk tid g text file line).2 text2 file line).1 = []
  ∧ (lg.warn_once clk tid (lg.warn_once clk tid g text file line).2 text3 file line2).1.length = 1
  ∧ (lg2.warn_once clk2 tid2 (lg.warn_once clk tid g text file line).2 text2 file line).1 = [] := by
  have hnl : ¬ lg.level_.toNat < LOG_LEVEL.WARN.toNat := Nat.not_lt.mpr hlvl
  have e1 : lg.warn_once clk tid g text file line =
      (invokeHandlers lg.name_ clk g.ticks "WARN" (assembled tid text file line)
         lg.handlers_,
       ⟨(file, line) :: g.warned, g.ticks + lg.handlers_.length⟩) := by
    simp [Logger.warn_once, hl, hf, Logger.warn, hnl, Logger.write_message]
  rw [e1]
  refine ⟨by simp [invokeHandlers_length, hh], rfl, ?_, ?_, ?_⟩
  · simp [Logger.warn_once, hl]
  · have hmem : (file, line2) ∉ ((file, line) :: g.warned) := by
      simp [hf2, Prod.mk.injEq]
      intro h
      exact absurd h.symm hne
    simp [Logger.warn_once, hl2, hmem, Logger.warn, hnl, Logger.write_message,
      invokeHandlers_length, hh]
  · simp [Logger.warn_once, hl]

/-- Witness for C4: `warn_once("x", "f.cpp", 10)` twice, then line 11, from a
fresh dedup table; a NONE-threshold logger at the same key is also dropped. -/
theorem C4_warn_once_dedup_witness :
    ((Logger.mk "root" [0] .WARN).warn_once (fun n => n) "t" ⟨[], 0⟩ "x" "f.cpp" 10).1.length = 1
  ∧ ((Logger.mk "root" [0] .WARN).warn_once (fun n => n) "t" ⟨[], 0⟩ "x" "f.cpp" 10).2.warned
      = [("f.cpp", 10)]
  ∧ ((Logger.mk "root" [0] .WARN).warn_once (fun n => n) "t"
      ((Logger.mk "root" [0] .WARN).warn_once (fun n => n) "t" ⟨[], 0⟩ "x" "f.cpp" 10).2
      "x" "f.cpp" 10).1 = []
  ∧ ((Logger.mk "root" [0] .WARN).warn_once (fun n => n) "t"
      ((Logger.mk "root" [0] .WARN).warn_once (fun n => n) "t" ⟨[], 0⟩ "x" "f.cpp" 10).2
      "x" "f.cpp" 11).1.length = 1
  ∧ ((Logger.mk "other" [] .NONE).warn_once (fun n => n) "u"
      ((Logger.mk "root" [0] .WARN).warn_once (fun n => n) "t" ⟨[], 0⟩ "x" "f.cpp" 10).2
      "x" "f.cpp" 10).1 = [] :=
  C4_warn_once_dedup (Logger.mk "root" [0] .WARN) (Logger.mk "other" [] .NONE)
    (fun n => n) (fun n => n) "t" "u" ⟨[], 0⟩ "x" "x" "x" "f.cpp" 10 11 0
    (by decide) rfl (by decide) (by decide) (by decide) (by decide) (by decide)

/-- Counterexample for C5: with two handlers and threshold DEBUG, one
`info("hello")` call produces two invocations with the same message text,
but the clock is queried once per handler inside the dispatch loop, so under
a clock oracle that advances between queries the two events carry different
timestamps — refuting "the same timestamp". -/
theorem C5_per_handler_clock_query :
    ((Logger.mk "root" [0, 1] .DEBUG).info (fun n => n) "t" ⟨[], 0⟩ "hello" "None" (-1)).1.map
        Event.message = ["t: hello (None:-1)", "t: hello (None:-1)"]
  ∧ ((Logger.mk "root" [0, 1] .DEBUG).info (fun n => n) "t" ⟨[], 0⟩ "hello" "None" (-1)).1.map
        Event.time = [0, 1]
  ∧ ¬ (∀ e ∈ ((Logger.mk "root" [0, 1] .DEBUG).info (fun n => n) "t" ⟨[], 0⟩ "hello" "None" (-1)).1,
        ∀ e2 ∈ ((Logger.mk "root" [0, 1] .DEBUG).info (fun n => n) "t" ⟨[], 0⟩ "hello" "None" (-1)).1,
        e.time = e2.time) := by
  have h : ((Logger.mk "root" [0, 1] .DEBUG).info (fun n => n) "t" ⟨[], 0⟩ "hello" "None" (-1)).1 =
      [⟨"root", 0, 0, "INFO", "t: hello (None:-1)"⟩,
       ⟨"root", 1, 1, "INFO", "t: hello (None:-1)"⟩] := by
    simp [Logger.info, LOG_LEVEL.toNat, Logger.write_message, invokeHandlers,
      assembled, formatLine_eq]
    decide
  rw [h]
  refine ⟨rfl, rfl, ?_⟩
  decide

/-- Claim C5 as amended: a logger with two handlers and threshold DEBUG, on
one `info("hello")` call, invokes exactly the two handlers in attachment
order with the same rendered message text; each invocation's timestamp is a
fresh clock reading taken at that invocation (the two readings coincide only
when the clock does not advance between them). -/
theorem C5_two_handlers (lg : Logger) (clk : Nat → Nat) (tid : String)
    (g : GState) (h0 h1 : Nat)
    (hlvl : lg.level_ = LOG_LEVEL.DEBUG) (hh : lg.handlers_ = [h0, h1]) :
    (lg.info clk tid g "hello").1 =
      [⟨lg.name_, h0, clk g.ticks, "INFO", assembled tid "hello" "None" (-1)⟩,
       ⟨lg.name_, h1, clk (g.ticks + 1), "INFO", assembled tid "hello" "None" (-1)⟩] := by
  simp [Logger.info, hlvl, LOG_LEVEL.toNat, Logger.write_message, hh,
    invokeHandlers]

/-- Witness for C5: a concrete DEBUG logger with handlers 4 and 9 and a
shifted clock. -/
theorem C5_two_handlers_witness :
    ((Logger.mk "root" [4, 9] .DEBUG).info (fun n => n + 100) "t" ⟨[], 0⟩ "hello").1 =
      [⟨"root", 4, 100, "INFO", assembled "t" "hello" "None" (-1)⟩,
       ⟨"root", 9, 101, "INFO", assembled "t" "hello" "None" (-1)⟩] :=
  C5_two_handlers (Logger.mk "root" [4, 9] .DEBUG) (fun n => n + 100) "t" ⟨[], 0⟩
    4 9 rfl rfl

/-- Claim C6: after `set_level(NONE)`, every call to each of the five
severity methods (debug, info, warn, error, warn_once) produces zero handler
invocations. -/
theorem C6_none_suppresses_all (lg : Logger) (clk : Nat → Nat) (tid : String)
    (g : GState) (text file : String) (line : Int) :
    ((lg.set_level .NONE).debug clk tid g text file line).1 = []
  ∧ ((lg.set_level .NONE).info clk tid g text file line).1 = []
  ∧ ((lg.set_level .NONE).warn clk tid g text file line).1 = []
  ∧ ((lg.set_level .NONE).error clk tid g text file line).1 = []
  ∧ ((lg.set_level .NONE).warn_once clk tid g text file line).1 = [] := by
  refine ⟨by simp [Logger.set_level, Logger.debug, LOG_LEVEL.toNat],
    by simp [Logger.set_level, Logger.info, LOG_LEVEL.toNat],
    by simp [Logger.set_level, Logger.warn, LOG_LEVEL.toNat],
    by simp [Logger.set_level, Logger.error, LOG_LEVEL.toNat], ?_⟩
  rw [Logger.warn_once]
  split
  · simp [Logger.set_level, Logger.warn, LOG_LEVEL.toNat]
  · split
    · rfl
    · simp [Logger.set_level, Logger.warn, LOG_LEVEL.toNat]

/-- Claim C7: `warn_once` with the `-1` sentinel line is the very same call
as `warn` with the same arguments, and the dedup table is untouched. -/
theorem C7_sentinel_degrades_to_warn (lg : Logger) (clk : Nat → Nat)
    (tid : String) (g : GState) (text file : String) :
    lg.warn_once clk tid g text file (-1) = lg.warn clk tid g text file (-1)
  ∧ (lg.warn_once clk tid g text file (-1)).2.warned = g.warned := by
  have h : lg.warn_once clk tid g text file (-1) = lg.warn clk tid g text file (-1) := by
    rw [Logger.warn_once]
    simp
  refine ⟨h, ?_⟩
  rw [h, Logger.warn]
  split
  · rfl
  · rfl

/-- Claim C8: every record emitted by `write_message` — and hence by each of
the five severity methods — carries the message text
`<thread-id>: <text> (<file>:<line>)`, with the line suffix rendered through
the positional Formatter (`_F("{0}").format(line)`), which returns the
decimal form of the line number. -/
theorem C8_message_assembly (lg : Logger) (clk : Nat → Nat) (tid : String)
    (g : GState) (level text file : String) (line : Int) :
    (∀ e ∈ (lg.write_message clk tid g level text file line).1,
        e.message = assembled tid text file line)
  ∧ assembled tid text file line =
      tid ++ ": " ++ text ++ " (" ++ file ++ ":" ++ formatLine line ++ ")"
  ∧ formatLine line = toString line
  ∧ (Formatter.mk "{0}").format [toString line] = .ok (toString line)
  ∧ (∀ e ∈ (lg.debug clk tid g text file line).1, e.message = assembled tid text file line)
  ∧ (∀ e ∈ (lg.info clk tid g text file line).1, e.message = assembled tid text file line)
  ∧ (∀ e ∈ (lg.warn clk tid g text file line).1, e.message = assembled tid text file line)
  ∧ (∀ e ∈ (lg.error clk tid g text file line).1, e.message = assembled tid text file line)
  ∧ (∀ e ∈ (lg.warn_once clk tid g text file line).1, e.message = assembled tid text file line) := by
  have hw : ∀ g2 : GState, ∀ lvl : String,
      ∀ e ∈ (lg.write_message clk tid g2 lvl text file line).1,
      e.message = assembled tid text file line := by
    intro g2 lvl e he
    exact invokeHandlers_message _ _ _ _ _ _ e he
  have hwarn : ∀ g2 : GState, ∀ e ∈ (lg.warn clk tid g2 text file line).1,
      e.message = assembled tid text file line := by
    intro g2
    rw [Logger.warn]
    split
    · intro e he; cases he
    · exact hw g2 "WARN"
  refine ⟨hw g level, rfl, formatLine_eq line, format_zero_ok _, ?_, ?_, hwarn g, ?_, ?_⟩
  · rw [Logger.debug]
    split
    · intro e he; cases he
    · exact hw g "DEBUG"
  · rw [Logger.info]
    split
    · intro e he; cases he
    · exact hw g "INFO"
  · rw [Logger.error]
    split
    · intro e he; cases he
    · exact hw g "ERROR"
  · rw [Logger.warn_once]
    split
    · exact hwarn g
    · split
      · intro e he; cases he
      · exact hwarn _

/-- Witness for C8: the single event of a concrete `write_message` call
carries the assembled text. -/
theorem C8_message_assembly_witness :
    (⟨"root", 5, 0, "INFO", assembled "7" "hello" "f.cpp" 3⟩ : Event).message
      = assembled "7" "hello" "f.cpp" 3 :=
  (C8_message_assembly (Logger.mk "root" [5] .DEBUG) (fun n => n) "7" ⟨[], 0⟩
      "INFO" "hello" "f.cpp" 3).1
    ⟨"root", 5, 0, "INFO", assembled "7" "hello" "f.cpp" 3⟩
    (by simp [Logger.write_message, invokeHandlers])

/-- Claim C9: `warn_once` at a fresh `(file, line)` key inserts the key into
the dedup table even when the logger's threshold suppresses the warn (the
threshold is only checked afterwards, inside `warn`); a later `warn_once` at
the same key — even from a logger whose threshold permits WARN — therefore
emits nothing. -/
theorem C9_insert_despite_suppression (lg lg2 : Logger) (clk clk2 : Nat → Nat)
    (tid tid2 : String) (g : GState) (text text2 file : String) (line : Int)
    (hsup : lg.level_.toNat < LOG_LEVEL.WARN.toNat) (hl : line ≠ -1)
    (hf : (file, line) ∉ g.warned)
    (_hperm : LOG_LEVEL.WARN.toNat ≤ lg2.level_.toNat) :
    (lg.warn_once clk tid g text file line).1 = []
  ∧ (lg.warn_once clk tid g text file line).2.warned = (file, line) :: g.warned
  ∧ (lg2.warn_once clk2 tid2 (lg.warn_once clk tid g text file line).2 text2 file line).1 = [] := by
  have e1 : lg.warn_once clk tid g text file line =
      ([], ⟨(file, line) :: g.warned, g.ticks⟩) := by
    simp [Logger.warn_once, hl, hf, Logger.warn, hsup]
  rw [e1]
  refine ⟨rfl, rfl, ?_⟩
  simp [Logger.warn_once, hl]

/-- Witness for C9: an ERROR-threshold logger swallows the warn but records
the key; a WARN-threshold logger is then silent at the same key. -/
theorem C9_insert_despite_suppression_witness :
    ((Logger.mk "root" [0] .ERROR).warn_once (fun n => n) "t" ⟨[], 0⟩ "x" "f.cpp" 10).1 = []
  ∧ ((Logger.mk "root" [0] .ERROR).warn_once (fun n => n) "t" ⟨[], 0⟩ "x" "f.cpp" 10).2.warned
      = [("f.cpp", 10)]
  ∧ ((Logger.mk "root" [0] .WARN).warn_once (fun n => n) "t"
      ((Logger.mk "root" [0] .ERROR).warn_once (fun n => n) "t" ⟨[], 0⟩ "x" "f.cpp" 10).2
      "x" "f.cpp" 10).1 = [] :=
  C9_insert_despite_suppression (Logger.mk "root" [0] .ERROR)
    (Logger.mk "root" [0] .WARN) (fun n => n) (fun n => n) "t" "t" ⟨[], 0⟩
    "x" "x" "f.cpp" 10 (by decide) (by decide) (by decide) (by decide)

/-- Claim C10: substitution proceeds one argument at a time over the
partially substituted string, replacing the first occurrence of the literal
token `{i}`, so an earlier argument's value that contains the next token is
replaced instead of the original placeholder: `"{0}{1}"` with `("{1}", "x")`
yields `"x{1}"`, not `"{1}x"` — under the spec-modelled intended recursion;
in the source, any call with two or more arguments is ill-formed (the
`Counter` slip), which the faithful embedding records as `illFormed`. -/
theorem C10_first_occurrence_injection :
    (Formatter.mk "{0}{1}").format ["{1}", "x"] = .error .illFormed
  ∧ format_spec "{0}{1}" ["{1}", "x"] = .ok "x{1}"
  ∧ format_spec "{0}{1}" ["{1}", "x"] ≠ .ok "{1}x" := by
  refine ⟨by simp [Formatter.format, do_format]; rfl, rfl, ?_⟩
  intro h
  exact absurd (Except.ok.inj h) (by decide)

end Kazlog
